import Mathlib

/-!
Verification development for the vnemath static-analysis aggregation scripts
(`scripts/clang_tidy_analyzer.py`, `scripts/cppcheck_analyzer.py`,
`scripts/static_analyzer.py`).

The Python string operations used by the scripts (`str.strip`, `str.split`,
`in`, `str.startswith`, `str.isdigit`, `int`, `str.replace`, `pathlib.Path.name`)
are embedded as executable Lean functions over `List Char`, and the parsing,
filtering, aggregation and orchestration logic is translated function by
function from the source.
-/

/-- Python whitespace characters removed by `str.strip()`
(space, tab, newline, carriage return, vertical tab, form feed). -/
def pyIsSpace (c : Char) : Bool :=
  c = ' ' || c = '\t' || c = '\n' || c = '\r' || c = Char.ofNat 11 || c = Char.ofNat 12

/-- Python `s.strip()`: remove leading and trailing whitespace. -/
def pyStrip (s : String) : String :=
  String.mk (((s.data.dropWhile pyIsSpace).reverse.dropWhile pyIsSpace).reverse)

/-- Split a character list at every occurrence of the separator character;
`acc` is the (reversed) current piece.  Mirrors Python `s.split(sep)` for a
one-character separator. -/
def splitOnCharAux (sep : Char) : List Char → List Char → List (List Char)
  | [], acc => [acc.reverse]
  | c :: rest, acc =>
      if c = sep then acc.reverse :: splitOnCharAux sep rest []
      else splitOnCharAux sep rest (c :: acc)

/-- Python `s.split(sep)` for a one-character separator. -/
def pySplitChar (s : String) (sep : Char) : List String :=
  (splitOnCharAux sep s.data []).map String.mk

/-- Join pieces back with the separator character (used to rebuild the
remainder that Python's `maxsplit` leaves unsplit). -/
def joinWithChar (sep : Char) : List (List Char) → List Char
  | [] => []
  | [x] => x
  | x :: y :: rest => x ++ sep :: joinWithChar sep (y :: rest)

/-- Python `s.split(sep, 2)` for a one-character separator: at most the first
two occurrences split; the rest of the string is one trailing piece. -/
def pySplitMax2 (s : String) (sep : Char) : List String :=
  let parts := splitOnCharAux sep s.data []
  (if parts.length ≤ 3 then parts
   else parts.take 2 ++ [joinWithChar sep (parts.drop 2)]).map String.mk

/-- Does `pat` occur at the head of the list?  (Python `s.startswith`). -/
def leadsWith : List Char → List Char → Bool
  | [], _ => true
  | _ :: _, [] => false
  | p :: ps, c :: cs => p = c && leadsWith ps cs

/-- Scan for the first occurrence of `pat`; on a hit return the characters
after it.  `isSome` of the result is Python `pat in s`; the payload is
Python `s.split(pat, 1)[1]`. -/
def dropAfterSub (pat : List Char) : List Char → Option (List Char)
  | [] => match pat with
          | [] => some []
          | _ :: _ => none
  | c :: rest =>
      if leadsWith pat (c :: rest) then some (List.drop pat.length (c :: rest))
      else dropAfterSub pat rest

/-- Python `pat in s` (substring containment). -/
def strContains (s pat : String) : Bool :=
  (dropAfterSub pat.data s.data).isSome

/-- Python `s.split(pat, 1)[1]`: everything after the first occurrence of
`pat` (empty when `pat` does not occur; the scripts only call this under a
containment guard). -/
def pySplitAfter (s pat : String) : String :=
  String.mk ((dropAfterSub pat.data s.data).getD [])

/-- Python `s.startswith(c)` for a one-character pattern. -/
def pyStartsWith (s : String) (c : Char) : Bool :=
  match s.data with
  | [] => false
  | x :: _ => x = c

/-- Characters on which Python `str.isdigit` is true: Unicode
Numeric_Type Digit or Decimal.  The table is embedded here for the
character classes these proofs exercise: the ASCII decimal digits
(Numeric_Type=Decimal) and the Latin-1 superscript digits U+00B9, U+00B2,
U+00B3, which have Numeric_Type=Digit but are NOT decimal digits — they
satisfy `str.isdigit` yet make `int()` raise ValueError. -/
def pyIsDigitChar (c : Char) : Bool :=
  c.isDigit || c = Char.ofNat 0xB9 || c = Char.ofNat 0xB2 || c = Char.ofNat 0xB3

/-- Python `s.isdigit()`: non-empty and every character of Numeric_Type
Digit or Decimal. -/
def pyIsDigit (s : String) : Bool :=
  !s.data.isEmpty && s.data.all pyIsDigitChar

/-- Decimal value of a string of ASCII decimal digits. -/
def pyInt (s : String) : Nat :=
  s.data.foldl (fun n c => 10 * n + (c.toNat - 48)) 0

/-- The ValueError text of a failed `int()` conversion. -/
def pyIntError : String := "ValueError: invalid literal for int"

/-- Python `int(s)` on a string that passed `isdigit`: the conversion
succeeds only when every character is a DECIMAL digit; on a
Numeric_Type=Digit character such as a superscript it raises ValueError
(`none` here). -/
def pyIntOpt (s : String) : Option Nat :=
  if !s.data.isEmpty && s.data.all Char.isDigit then some (pyInt s) else none

/-- Python `s.replace(old, new)` for one-character arguments. -/
def pyReplaceChar (s : String) (old new : Char) : String :=
  String.mk (s.data.map fun c => if c = old then new else c)

/-- Python `pathlib.Path(p).name`: the final path component (for paths
without a trailing separator, the text after the last slash). -/
def pathName (p : String) : String :=
  (pySplitChar p '/').getLastD ""

/-- Python truthiness of an optional string (`if current_file:`):
`None` and the empty string are falsy. -/
def pyTruthy : Option String → Bool
  | none => false
  | some s => !(s == "")

/-- The parts sequence of `pathlib.PurePosixPath` for POSIX paths without
".." components: a leading "/" anchor when absolute, then the non-empty,
non-"." components. -/
def pathParts (p : String) : List String :=
  if pyStartsWith p '/' then
    "/" :: (pySplitChar p '/').filter (fun s => !(s == "") && !(s == "."))
  else (pySplitChar p '/').filter (fun s => !(s == "") && !(s == "."))

/-- Component-list version of `leadsWith` for path parts. -/
def partsLead : List String → List String → Bool
  | [], _ => true
  | _ :: _, [] => false
  | p :: ps, c :: cs => p = c && partsLead ps cs

/-- The ValueError text of a failed `Path.relative_to`. -/
def valueErrorRelativeTo : String :=
  "ValueError: path is not in the subpath of the project root"

/-- Python `Path(target).relative_to(root)`: succeeds iff the root's parts
are a prefix of the target's parts, returning the remaining components;
otherwise it raises ValueError (`none` here). -/
def pyRelativeTo (target root : String) : Option (List String) :=
  if partsLead (pathParts root) (pathParts target) then
    some ((pathParts target).drop (pathParts root).length)
  else none

/-- Structural equality test for fallible results, so that concrete runs of
the fallible functions below can be settled by `decide`. -/
instance {ε α : Type} [DecidableEq ε] [DecidableEq α] : DecidableEq (Except ε α)
  | Except.error e, Except.error f =>
      if h : e = f then isTrue (by rw [h]) else
        isFalse (fun hc => absurd (by injection hc) h)
  | Except.error _, Except.ok _ => isFalse (fun hc => Except.noConfusion hc)
  | Except.ok _, Except.error _ => isFalse (fun hc => Except.noConfusion hc)
  | Except.ok x, Except.ok y =>
      if h : x = y then isTrue (by rw [h]) else
        isFalse (fun hc => absurd (by injection hc) h)

/-! ## Diagnostic record model (clang_tidy_analyzer.py) -/

/-- One diagnostic record as built by `parse_clang_tidy_output`
(clang_tidy_analyzer.py lines 317-323 and 342-348). -/
structure Diagnostic where
  severity : String
  line : Nat
  column : Nat
  message : String
  checkName : String
deriving DecidableEq, Repr

/-- One per-file group in the JSON produced by `parse_clang_tidy_output`. -/
structure FileData where
  file : String
  diagnostics : List Diagnostic
deriving DecidableEq, Repr

/-- The mutable scan state of `parse_clang_tidy_output`
(`current_file`, `current_diagnostics`, `json_data`). -/
structure ParseState where
  current_file : Option String
  current_diagnostics : List Diagnostic
  json_data : List FileData
deriving DecidableEq, Repr

/-- The severity-keyword test repeated in the parser:
`'error:' in line or 'warning:' in line or 'note:' in line`. -/
def hasSeverityKeyword (l : String) : Bool :=
  strContains l "error:" || strContains l "warning:" || strContains l "note:"

/-- The severity/message extraction block duplicated at
clang_tidy_analyzer.py lines 304-315 (on `rest`) and 329-340 (on `line`). -/
def severityAndMessage (rest : String) : String × String :=
  if strContains rest "error:" then ("error", pyStrip (pySplitAfter rest "error:"))
  else if strContains rest "warning:" then ("warning", pyStrip (pySplitAfter rest "warning:"))
  else if strContains rest "note:" then ("note", pyStrip (pySplitAfter rest "note:"))
  else ("info", pyStrip rest)

/-- Record constructor used by both emission sites of the free-text parser
(`checkName` is always the tool-generic `"clang-tidy"`). -/
def mkDiagnostic (sev : String) (ln col : Nat) (msg : String) : Diagnostic :=
  ⟨sev, ln, col, msg, "clang-tidy"⟩

/-- The `if current_file and current_diagnostics: json_data.append(...)`
flush used when a new group opens and at end of input. -/
def flushGroup (st : ParseState) : List FileData :=
  if pyTruthy st.current_file && !st.current_diagnostics.isEmpty then
    st.json_data ++ [⟨st.current_file.getD "", st.current_diagnostics⟩]
  else st.json_data

/-- The state opened by a group-starting line with at least three
colon-delimited parts (clang_tidy_analyzer.py lines 297-323); `n` is the
value stored in the record's `line` field. -/
def openGroupState (st : ParseState) (line : String) (n : Nat) : ParseState :=
  { current_file := some ((pySplitMax2 line ':').getD 0 ""),
    current_diagnostics :=
      [mkDiagnostic
        (severityAndMessage ((pySplitMax2 line ':').getD 2 "")).1 n 0
        (severityAndMessage ((pySplitMax2 line ':').getD 2 "")).2],
    json_data := flushGroup st }

/-- One iteration of the line loop of `parse_clang_tidy_output`
(clang_tidy_analyzer.py lines 282-348).  The loop variable `line` of the
source (`line = line.strip()`) is written out as `pyStrip rawLine`, and the
local `parts = line.split(':', 2)` as `pySplitMax2 (pyStrip rawLine) ':'`.
The line-number conversion `int(line_num) if line_num.isdigit() else 0` can
raise: when `line_num` passes `isdigit` but is not int-parsable (a
Numeric_Type=Digit character such as a superscript) the uncaught
ValueError aborts the whole parse. -/
def processLine (st : ParseState) (rawLine : String) : Except String ParseState :=
  if pyStrip rawLine = "" then Except.ok st
  else if pyStartsWith (pyStrip rawLine) '/' && hasSeverityKeyword (pyStrip rawLine) then
    if (pySplitMax2 (pyStrip rawLine) ':').length ≥ 3 then
      if pyIsDigit ((pySplitMax2 (pyStrip rawLine) ':').getD 1 "") then
        match pyIntOpt ((pySplitMax2 (pyStrip rawLine) ':').getD 1 "") with
        | some n => Except.ok (openGroupState st (pyStrip rawLine) n)
        | none => Except.error pyIntError
      else Except.ok (openGroupState st (pyStrip rawLine) 0)
    else
      Except.ok { current_file := some (pyStrip rawLine),
                  current_diagnostics := [],
                  json_data := flushGroup st }
  else if pyTruthy st.current_file && hasSeverityKeyword (pyStrip rawLine) then
    Except.ok { st with current_diagnostics :=
        st.current_diagnostics ++
          [mkDiagnostic (severityAndMessage (pyStrip rawLine)).1 0 0
            (severityAndMessage (pyStrip rawLine)).2] }
  else Except.ok st

/-- The `for line in lines` loop: a raising iteration aborts the scan. -/
def processLines : ParseState → List String → Except String ParseState
  | st, [] => Except.ok st
  | st, l :: ls =>
      match processLine st l with
      | Except.error e => Except.error e
      | Except.ok st1 => processLines st1 ls

/-- `parse_clang_tidy_output` (clang_tidy_analyzer.py lines 274-357):
strip the output, scan it line by line, flush the last open group; an
uncaught ValueError from the line-number conversion propagates. -/
def parse_clang_tidy_output (output : String) : Except String (List FileData) :=
  match processLines ⟨none, [], []⟩ (pySplitChar (pyStrip output) '\n') with
  | Except.error e => Except.error e
  | Except.ok st => Except.ok (flushGroup st)

/-! ## Vendor filter and per-file aggregation -/

/-- The fixed third-party marker list repeated at clang_tidy_analyzer.py
lines 80-83 and cppcheck_analyzer.py lines 85-88 and 208-211. -/
def vendorMarkers : List String :=
  ["3rd_party", "third_party", "external", "vendor", "googletest", "gtest", "gmock"]

/-- `any(third_party in path for third_party in [...])`: the vendor filter,
a pure predicate on the path string. -/
def isVendored (path : String) : Bool :=
  vendorMarkers.any fun m => strContains path m

/-- Body of the selection loop of clang_tidy's `generate_file_report`
(clang_tidy_analyzer.py lines 74-87): keep diagnostics of groups whose
`file` equals the target exactly (`current_file_path == file_path`) and is
not vendored (`continue` on a marker hit). -/
def clangStep (file_path : String) (acc : List Diagnostic) (fd : FileData) : List Diagnostic :=
  if fd.file = file_path then
    if isVendored fd.file then acc else acc ++ fd.diagnostics
  else acc

/-- `file_diagnostics` accumulated by clang_tidy's `generate_file_report`. -/
def fileDiagnostics (data : List FileData) (file_path : String) : List Diagnostic :=
  data.foldl (clangStep file_path) []

/-- clang_tidy's `generate_file_report` (clang_tidy_analyzer.py lines
65-185): select this file's diagnostics, then compute
`display_path = str(Path(file_path).relative_to(project_root))` (line 93).
That call sits outside any ValueError handler — the `except` at line 183
catches only JSONDecodeError and FileNotFoundError — so for a target that
is not under the project root the function raises instead of returning the
issue count. -/
def clang_generate_file_report (data : List FileData) (file_path project_root : String) :
    Except String Nat :=
  match pyRelativeTo file_path project_root with
  | none => Except.error valueErrorRelativeTo
  | some _ => Except.ok (fileDiagnostics data file_path).length

/-- A `<location file=... line=...>` child element of a cppcheck error
element; a missing attribute is read as the empty string (`.get(_, '')`). -/
structure CppLocation where
  file : String
  line : String
deriving DecidableEq, Repr

/-- One `<error>` element of the cppcheck XML report. -/
structure CppError where
  severity : String
  msg : String
  id : String
  location : Option CppLocation
deriving DecidableEq, Repr

/-- Body of the selection loop of cppcheck's `generate_file_report`
(cppcheck_analyzer.py lines 199-214): errors without a location element are
skipped; the rest are matched to the target by exact string equality and
dropped when the path carries a vendor marker. -/
def cppStep (file_path : String) (acc : List CppError) (e : CppError) : List CppError :=
  match e.location with
  | none => acc
  | some loc =>
      if loc.file = file_path then
        if isVendored loc.file then acc else acc ++ [e]
      else acc

/-- `file_errors` accumulated by cppcheck's `generate_file_report`. -/
def cppFileErrors (errors : List CppError) (file_path : String) : List CppError :=
  errors.foldl (cppStep file_path) []

/-- cppcheck's `generate_file_report` (cppcheck_analyzer.py lines
189-314): the XML input is either a parsed list of error elements or a
parse failure.  `ET.parse` raises first (line 192), so on a malformed
report `except ET.ParseError` prints and returns issue count 0 before any
other work.  On a well-formed report the function then computes
`display_path = str(Path(file_path).relative_to(project_root))` (line 220)
outside any ValueError handler, so an out-of-root target raises instead of
returning the count. -/
def cppcheck_generate_file_report
    (xml : Except String (List CppError)) (file_path project_root : String) :
    Except String Nat :=
  match xml with
  | Except.error _ => Except.ok 0
  | Except.ok errors =>
      match pyRelativeTo file_path project_root with
      | none => Except.error valueErrorRelativeTo
      | some _ => Except.ok (cppFileErrors errors file_path).length

/-! ## Report naming and status classification -/

/-- `Path(file_path).name.replace('.', '_').replace('/', '_')`
(clang_tidy_analyzer.py line 176, cppcheck_analyzer.py line 305). -/
def safe_filename (file_path : String) : String :=
  pyReplaceChar (pyReplaceChar (pathName file_path) '.' '_') '/' '_'

/-- Detail view file name used by cppcheck_analyzer.py line 306. -/
def cppcheckReportName (fp : String) : String :=
  safe_filename fp ++ "-cppcheck-report.html"

/-- Detail view file name used by clang_tidy_analyzer.py line 177. -/
def clangTidyReportName (fp : String) : String :=
  safe_filename fp ++ "-clang-tidy-report.html"

/-- Status tier of a File Report in the index view; `success` is rendered
as the Clean badge (clang_tidy_analyzer.py lines 234-243,
cppcheck_analyzer.py lines 363-372).  The input is the issue count only. -/
inductive Status where
  | success
  | warning
  | error
deriving DecidableEq, Repr

/-- `if issue_count == 0: success / elif issue_count <= 5: warning /
else: error`. -/
def reportStatus (issue_count : Nat) : Status :=
  if issue_count = 0 then Status.success
  else if issue_count ≤ 5 then Status.warning
  else Status.error

/-- Severity enumeration of the data model (spec section 3). -/
def validSeverity (s : String) : Bool :=
  ["error", "warning", "info", "note", "unknown"].contains s

/-! ## Run models (run_cppcheck, run_clang_tidy, static_analyzer main) -/

/-- One `file_reports` entry built in the run loops
(clang_tidy_analyzer.py lines 439-443, cppcheck_analyzer.py lines 481-485). -/
structure IndexEntry where
  file : String
  issues : Nat
  path : String
deriving DecidableEq, Repr

/-- Outcome of one analyzer run: the boolean returned to `main`, the
`file_reports` list, and the names of report artifacts left on disk at the
end of the run. -/
structure RunResult where
  success : Bool
  fileReports : List IndexEntry
  artifacts : List String
deriving DecidableEq, Repr

/-- The `for file_path in files` report loop of `run_cppcheck`
(cppcheck_analyzer.py lines 473-485): one index entry per target; an
exception from `generate_file_report` aborts the run at that iteration. -/
def cppReportLoop (xml : Except String (List CppError)) (project_root : String) :
    List String → Except String (List IndexEntry)
  | [] => Except.ok []
  | fp :: fps =>
      match cppcheck_generate_file_report xml fp project_root with
      | Except.error e => Except.error e
      | Except.ok n =>
          match cppReportLoop xml project_root fps with
          | Except.error e => Except.error e
          | Except.ok rest => Except.ok (⟨fp, n, cppcheckReportName fp⟩ :: rest)

/-- The `for file_path in files` report loop of `run_clang_tidy`
(clang_tidy_analyzer.py lines 431-443). -/
def clangReportLoop (data : List FileData) (project_root : String) :
    List String → Except String (List IndexEntry)
  | [] => Except.ok []
  | fp :: fps =>
      match clang_generate_file_report data fp project_root with
      | Except.error e => Except.error e
      | Except.ok n =>
          match clangReportLoop data project_root fps with
          | Except.error e => Except.error e
          | Except.ok rest => Except.ok (⟨fp, n, clangTidyReportName fp⟩ :: rest)

/-- `run_cppcheck` (cppcheck_analyzer.py lines 403-510).  The subprocess
boundary is abstracted: `rawReport` is `none` when the tool left no output
file, otherwise the parse outcome of that file; `returncode` is the tool's
exit code.  An empty file list returns `True` before writing anything.
Per-file detail views are written only when the XML parses (on a parse
error `generate_file_report` raises before its write and returns 0); the
index view is then written; the raw XML is kept only on request.  An
uncaught ValueError from a report iteration propagates (the only handler,
line 508, catches FileNotFoundError) and the run crashes; artifacts
written before the raise are not modelled on the error path. -/
def run_cppcheck (files : List String) (project_root : String)
    (rawReport : Option (Except String (List CppError)))
    (returncode : Int) (save_raw_xml : Bool) : Except String RunResult :=
  if files.isEmpty then Except.ok ⟨true, [], []⟩
  else
    match rawReport with
    | none => Except.ok ⟨false, [], []⟩
    | some xml =>
        match cppReportLoop xml project_root files with
        | Except.error e => Except.error e
        | Except.ok fileReports =>
            Except.ok ⟨returncode == 0, fileReports,
              (match xml with
               | Except.ok _ => fileReports.map IndexEntry.path
               | Except.error _ => []) ++ ["index.html"]
                ++ if save_raw_xml then ["cppcheck-raw.xml"] else []⟩

/-- `run_clang_tidy` (clang_tidy_analyzer.py lines 360-469).  `stdout` is
the captured standard output of the tool; an empty file list returns `True`
before writing anything; empty stdout returns `False`.  Both a ValueError
raised by the parser's line-number conversion and one raised by a report
iteration's `relative_to` propagate uncaught (the only handler, line 466,
catches FileNotFoundError) and the run crashes. -/
def run_clang_tidy (files : List String) (project_root : String) (stdout : String)
    (returncode : Int) (save_raw_json : Bool) : Except String RunResult :=
  if files.isEmpty then Except.ok ⟨true, [], []⟩
  else if stdout = "" then Except.ok ⟨false, [], []⟩
  else
    match parse_clang_tidy_output stdout with
    | Except.error e => Except.error e
    | Except.ok data =>
        match clangReportLoop data project_root files with
        | Except.error e => Except.error e
        | Except.ok fileReports =>
            Except.ok ⟨returncode == 0, fileReports,
              fileReports.map IndexEntry.path ++ ["index.html"]
                ++ if save_raw_json then ["clang-tidy-report.json"] else []⟩

/-- Result of the multi-tool session driver. -/
structure OrchestratorResult where
  invoked : List String
  success : Bool
  exitCode : Nat
deriving DecidableEq, Repr

/-- `main` of static_analyzer.py (lines 90-160): run cppcheck unless
`--clang-tidy-only`, then clang-tidy unless `--cppcheck-only`; `success`
starts `True` and is cleared by any non-zero child exit; the process exit
code is 1 iff `success` ended `False`.  The child exit codes are inputs. -/
def static_analyzer_main (clang_tidy_only cppcheck_only : Bool)
    (cppcheckExit clangTidyExit : Int) : OrchestratorResult :=
  let s0 := true
  let inv1 := if !clang_tidy_only then ["cppcheck"] else []
  let s1 := if !clang_tidy_only then s0 && (cppcheckExit == 0) else s0
  let inv2 := if !cppcheck_only then inv1 ++ ["clang-tidy"] else inv1
  let s2 := if !cppcheck_only then s1 && (clangTidyExit == 0) else s1
  ⟨inv2, s2, if s2 then 0 else 1⟩

/-- The free-text input line of end-to-end scenario A. -/
def scenarioAInput : String :=
  "/a/b.cpp:10:5: warning: unused variable \x27x\x27 [check-x]"

/-! ## Helper lemmas: substring containment -/

/-- `leadsWith` decides the there-is-a-tail decomposition. -/
lemma leadsWith_iff (p : List Char) : ∀ l : List Char,
    leadsWith p l = true ↔ ∃ t, l = p ++ t := by
  induction p with
  | nil => intro l; simp [leadsWith]
  | cons x xs ih =>
      intro l
      cases l with
      | nil =>
          simp [leadsWith]
      | cons c cs =>
          simp only [leadsWith, Bool.and_eq_true, decide_eq_true_eq, List.cons_append,
            List.cons.injEq]
          constructor
          · rintro ⟨hx, h⟩
            obtain ⟨t, ht⟩ := (ih cs).mp h
            exact ⟨t, hx.symm, ht⟩
          · rintro ⟨t, hx, ht⟩
            exact ⟨hx.symm, (ih cs).mpr ⟨t, ht⟩⟩

/-- The scanner `dropAfterSub` succeeds exactly when the pattern occurs as a
contiguous substring. -/
lemma dropAfterSub_isSome_iff (pat : List Char) : ∀ l : List Char,
    (dropAfterSub pat l).isSome = true ↔ ∃ a b, l = a ++ pat ++ b := by
  intro l
  induction l with
  | nil =>
      cases pat with
      | nil => simp [dropAfterSub]
      | cons x xs => simp [dropAfterSub]
  | cons c cs ih =>
      simp only [dropAfterSub]
      by_cases hl : leadsWith pat (c :: cs) = true
      · rw [if_pos hl]
        obtain ⟨t, ht⟩ := (leadsWith_iff pat _).mp hl
        simp only [Option.isSome_some, true_iff]
        exact ⟨[], t, by simpa using ht⟩
      · rw [if_neg hl, ih]
        constructor
        · rintro ⟨a, b, h⟩
          exact ⟨c :: a, b, by simp [h]⟩
        · rintro ⟨a, b, h⟩
          cases a with
          | nil =>
              exfalso
              exact hl ((leadsWith_iff pat _).mpr ⟨b, by simpa using h⟩)
          | cons a0 as =>
              simp only [List.cons_append, List.cons.injEq] at h
              exact ⟨as, b, h.2⟩

/-- Python `pat in s` holds exactly when `pat` occurs as a raw contiguous
substring of `s`. -/
lemma strContains_iff (s pat : String) :
    strContains s pat = true ↔ ∃ a b, s.data = a ++ pat.data ++ b :=
  dropAfterSub_isSome_iff pat.data s.data

/-! ## Helper lemmas: parser invariants -/

/-- Invariant over every diagnostic stored in the scan state. -/
def DiagInv (P : Diagnostic → Prop) (st : ParseState) : Prop :=
  (∀ fd ∈ st.json_data, ∀ d ∈ fd.diagnostics, P d) ∧
  (∀ d ∈ st.current_diagnostics, P d)

lemma flushGroup_diag {P : Diagnostic → Prop} {st : ParseState} (h : DiagInv P st) :
    ∀ fd ∈ flushGroup st, ∀ d ∈ fd.diagnostics, P d := by
  unfold flushGroup
  split_ifs with hg
  · intro fd hfd
    rcases List.mem_append.mp hfd with h1 | h2
    · exact h.1 fd h1
    · rw [List.mem_singleton] at h2
      subst h2
      exact h.2
  · exact h.1

/-- Opening a group preserves any property that holds of every record the
parser can create. -/
lemma openGroupState_diag {P : Diagnostic → Prop}
    (hP : ∀ r ln, P (mkDiagnostic (severityAndMessage r).1 ln 0 (severityAndMessage r).2))
    {st : ParseState} (h : DiagInv P st) (line : String) (n : Nat) :
    DiagInv P (openGroupState st line n) := by
  refine ⟨flushGroup_diag h, ?_⟩
  intro d hd
  simp only [openGroupState, List.mem_singleton] at hd
  subst hd
  exact hP _ _

/-- Every diagnostic record the parser step creates has the shape
`mkDiagnostic (severityAndMessage r).1 ln 0 (severityAndMessage r).2`; any
property of all such records is preserved by a non-raising step. -/
lemma processLine_diag {P : Diagnostic → Prop}
    (hP : ∀ r ln, P (mkDiagnostic (severityAndMessage r).1 ln 0 (severityAndMessage r).2))
    {st st' : ParseState} (l : String) (h : DiagInv P st)
    (hok : processLine st l = Except.ok st') : DiagInv P st' := by
  unfold processLine at hok
  split_ifs at hok with h1 h2 h3 h4 h5
  · injection hok with h'
    subst h'
    exact h
  · split at hok
    · injection hok with h'
      subst h'
      exact openGroupState_diag hP h _ _
    · exact Except.noConfusion hok
  · injection hok with h'
    subst h'
    exact openGroupState_diag hP h _ _
  · injection hok with h'
    subst h'
    exact ⟨flushGroup_diag h, by simp⟩
  · injection hok with h'
    subst h'
    refine ⟨h.1, ?_⟩
    intro d hd
    rcases List.mem_append.mp hd with hold | hnew
    · exact h.2 d hold
    · rw [List.mem_singleton] at hnew
      subst hnew
      exact hP _ _
  · injection hok with h'
    subst h'
    exact h

lemma processLines_diag {P : Diagnostic → Prop}
    (hP : ∀ r ln, P (mkDiagnostic (severityAndMessage r).1 ln 0 (severityAndMessage r).2)) :
    ∀ (ls : List String) (st st' : ParseState), DiagInv P st →
      processLines st ls = Except.ok st' → DiagInv P st' := by
  intro ls
  induction ls with
  | nil =>
      intro st st' h hok
      unfold processLines at hok
      injection hok with h'
      subst h'
      exact h
  | cons a as ih =>
      intro st st' h hok
      unfold processLines at hok
      split at hok
      · exact Except.noConfusion hok
      · rename_i st1 heq
        exact ih st1 st' (processLine_diag hP a h heq) hok

/-- Invariant transfer to every successful parse. -/
lemma parse_diag {P : Diagnostic → Prop}
    (hP : ∀ r ln, P (mkDiagnostic (severityAndMessage r).1 ln 0 (severityAndMessage r).2))
    (input : String) :
    ∀ fds, parse_clang_tidy_output input = Except.ok fds →
      ∀ fd ∈ fds, ∀ d ∈ fd.diagnostics, P d := by
  intro fds hok
  unfold parse_clang_tidy_output at hok
  split at hok
  · exact Except.noConfusion hok
  · rename_i st heq
    injection hok with h'
    subst h'
    exact flushGroup_diag (processLines_diag hP _ _ _ ⟨by simp, by simp⟩ heq)

lemma pyTruthy_getD {o : Option String} (h : pyTruthy o = true) : o.getD "" ≠ "" := by
  cases o with
  | none => simp [pyTruthy] at h
  | some s =>
      simp only [pyTruthy, Bool.not_eq_eq_eq_not, Bool.not_true, beq_eq_false_iff_ne,
        ne_eq] at h
      simpa using h

/-- Invariant: every flushed group carries a non-empty file path. -/
def FileInv (st : ParseState) : Prop :=
  ∀ fd ∈ st.json_data, fd.file ≠ ""

lemma flushGroup_file {st : ParseState} (h : FileInv st) :
    ∀ fd ∈ flushGroup st, fd.file ≠ "" := by
  unfold flushGroup
  split_ifs with hg
  · intro fd hfd
    rcases List.mem_append.mp hfd with h1 | h2
    · exact h fd h1
    · rw [List.mem_singleton] at h2
      subst h2
      rw [Bool.and_eq_true] at hg
      exact pyTruthy_getD hg.1
  · exact h

lemma processLine_file {st st' : ParseState} (l : String) (h : FileInv st)
    (hok : processLine st l = Except.ok st') : FileInv st' := by
  unfold processLine at hok
  split_ifs at hok with h1 h2 h3 h4 h5
  · injection hok with h'
    subst h'
    exact h
  · split at hok
    · injection hok with h'
      subst h'
      exact flushGroup_file h
    · exact Except.noConfusion hok
  · injection hok with h'
    subst h'
    exact flushGroup_file h
  · injection hok with h'
    subst h'
    exact flushGroup_file h
  · injection hok with h'
    subst h'
    exact h
  · injection hok with h'
    subst h'
    exact h

lemma processLines_file :
    ∀ (ls : List String) (st st' : ParseState), FileInv st →
      processLines st ls = Except.ok st' → FileInv st' := by
  intro ls
  induction ls with
  | nil =>
      intro st st' h hok
      unfold processLines at hok
      injection hok with h'
      subst h'
      exact h
  | cons a as ih =>
      intro st st' h hok
      unfold processLines at hok
      split at hok
      · exact Except.noConfusion hok
      · rename_i st1 heq
        exact ih st1 st' (processLine_file a h heq) hok

lemma parse_file_nonempty (input : String) :
    ∀ fds, parse_clang_tidy_output input = Except.ok fds →
      ∀ fd ∈ fds, fd.file ≠ "" := by
  intro fds hok
  unfold parse_clang_tidy_output at hok
  split at hok
  · exact Except.noConfusion hok
  · rename_i st heq
    injection hok with h'
    subst h'
    refine flushGroup_file (processLines_file _ _ _ ?_ heq)
    intro fd hfd
    simp at hfd

/-- Both parser emission sites only ever produce the four literal severity
strings of `severityAndMessage`, all of which lie in the enumeration. -/
lemma sev_valid (r : String) : validSeverity (severityAndMessage r).1 = true := by
  unfold severityAndMessage
  split_ifs <;> rfl

/-! ## Helper lemmas: vendor suppression -/

lemma clang_foldl_vendored {p : String} (hp : isVendored p = true) :
    ∀ (data : List FileData) (acc : List Diagnostic),
      data.foldl (clangStep p) acc = acc := by
  intro data
  induction data with
  | nil => intro acc; rfl
  | cons fd rest ih =>
      intro acc
      rw [List.foldl_cons]
      have hstep : clangStep p acc fd = acc := by
        unfold clangStep
        by_cases hf : fd.file = p
        · rw [if_pos hf, hf, if_pos hp]
        · rw [if_neg hf]
      rw [hstep]
      exact ih acc

lemma cpp_foldl_vendored {p : String} (hp : isVendored p = true) :
    ∀ (errors : List CppError) (acc : List CppError),
      errors.foldl (cppStep p) acc = acc := by
  intro errors
  induction errors with
  | nil => intro acc; rfl
  | cons e rest ih =>
      intro acc
      rw [List.foldl_cons]
      have hstep : cppStep p acc e = acc := by
        unfold cppStep
        split
        · rfl
        · split_ifs with hf hv
          · rfl
          · exact absurd (by rw [hf]; exact hp) hv
          · rfl
      rw [hstep]
      exact ih acc

/-! ## Helper lemmas: the report loop under a malformed XML report -/

/-- With a malformed XML report, every iteration of cppcheck's report loop
catches the parse error before the `relative_to` call, so the loop
succeeds with one zero-issue entry per target. -/
lemma cppReportLoop_error_xml (e project_root : String) :
    ∀ files : List String,
      cppReportLoop (Except.error e) project_root files =
        Except.ok (files.map fun fp => ⟨fp, 0, cppcheckReportName fp⟩) := by
  intro files
  induction files with
  | nil => rfl
  | cons f fs ih =>
      unfold cppReportLoop
      rw [ih]
      rfl

/-! ## Claim theorems -/

/-- C1: the File Report status classification is determined solely by the
issue count (the classifier takes only the count): `success`/Clean iff the
count is 0, `warning` iff it is between 1 and 5, `error` iff it exceeds 5. -/
theorem C1_status_tiers (n : Nat) :
    (reportStatus n = Status.success ↔ n = 0) ∧
    (reportStatus n = Status.warning ↔ 1 ≤ n ∧ n ≤ 5) ∧
    (reportStatus n = Status.error ↔ 5 < n) := by
  unfold reportStatus
  split_ifs with h1 h2
  · simp_all
  · simp_all
    omega
  · simp_all

/-- C2 counterexample: with one target file and a malformed XML report, the
cppcheck run completes normally with ONE File Report (not zero) and reports
success (exit code 0 of the tool), so a malformed report is neither fatal
nor surfaced. -/
theorem C2_counterexample :
    run_cppcheck ["/a/b.cpp"] "/home/user/vnemath"
        (some (Except.error "mismatched tag")) 0 false =
      Except.ok ⟨true, [⟨"/a/b.cpp", 0, "b_cpp-cppcheck-report.html"⟩], ["index.html"]⟩ := by
  decide

/-- C2 amended: when the XML report exists but is malformed, every per-file
report generation catches the parse error and counts 0 issues; the run
still emits one File Report per target plus the index view, and success is
decided solely by the tool exit code. -/
theorem C2_malformed_report (files : List String) (project_root e : String)
    (rc : Int) (save : Bool) (h : files ≠ []) :
    run_cppcheck files project_root (some (Except.error e)) rc save =
      Except.ok ⟨rc == 0, files.map (fun fp => ⟨fp, 0, cppcheckReportName fp⟩),
        ["index.html"] ++ if save then ["cppcheck-raw.xml"] else []⟩ := by
  cases files with
  | nil => exact absurd rfl h
  | cons f fs =>
      unfold run_cppcheck
      simp [cppReportLoop_error_xml]

/-- C2 witness: the amended statement applied to one concrete run. -/
theorem C2_malformed_report_witness :
    run_cppcheck ["/a/b.cpp"] "/home/user/vnemath" (some (Except.error "junk")) 2 false =
      Except.ok ⟨(2 : Int) == 0, ["/a/b.cpp"].map (fun fp => ⟨fp, 0, cppcheckReportName fp⟩),
        ["index.html"] ++ if false then ["cppcheck-raw.xml"] else []⟩ :=
  C2_malformed_report ["/a/b.cpp"] "/home/user/vnemath" "junk" 2 false (by decide)

/-- C3: the detail report name is built from the sanitized BASE name of the
analyzed file, so two distinct target paths with the same base name get the
same report name in both analyzers — the naming function is not injective. -/
theorem C3_basename_collision :
    safe_filename "/a/b.cpp" = "b_cpp" ∧
    safe_filename "/c/b.cpp" = "b_cpp" ∧
    cppcheckReportName "/a/b.cpp" = cppcheckReportName "/c/b.cpp" ∧
    clangTidyReportName "/a/b.cpp" = clangTidyReportName "/c/b.cpp" ∧
    ("/a/b.cpp" : String) ≠ "/c/b.cpp" := by
  decide

/-- C4: end-to-end scenario A against the code.  The parse and per-file
selection behave as the claim says: one group for the target whose single
record has severity warning, line 10 and the keyword-stripped message;
issue count 1 classifies as warning; a textually different spelling of the
same path selects nothing (exact string equality).  But the run itself
crashes: `generate_file_report` computes
`Path("/a/b.cpp").relative_to(project_root)` outside any ValueError
handler (clang_tidy_analyzer.py line 93), which raises for any project
root that is not an ancestor of `/a`, so no File Report and no index view
are produced. -/
theorem C4_scenario_a_crash :
    parse_clang_tidy_output scenarioAInput =
      Except.ok [⟨"/a/b.cpp",
        [mkDiagnostic "warning" 10 0 "unused variable \x27x\x27 [check-x]"]⟩] ∧
    fileDiagnostics
        [⟨"/a/b.cpp", [mkDiagnostic "warning" 10 0 "unused variable \x27x\x27 [check-x]"]⟩]
        "/a/b.cpp" =
      [mkDiagnostic "warning" 10 0 "unused variable \x27x\x27 [check-x]"] ∧
    reportStatus 1 = Status.warning ∧
    fileDiagnostics
        [⟨"/a/b.cpp", [mkDiagnostic "warning" 10 0 "unused variable \x27x\x27 [check-x]"]⟩]
        "/a/./b.cpp" = [] ∧
    run_clang_tidy ["/a/b.cpp"] "/home/user/vnemath" scenarioAInput 0 false =
      Except.error valueErrorRelativeTo := by
  decide

/-- C9 counterexample: on an empty target list the run writes NO artifacts
at all — in particular not even an (empty) index view. -/
theorem C9_counterexample :
    (run_cppcheck [] "/home/user/vnemath" none 0 false).map RunResult.artifacts =
      Except.ok [] ∧
    (run_cppcheck [] "/home/user/vnemath" none 0 false).map RunResult.artifacts ≠
      Except.ok ["index.html"] ∧
    (run_clang_tidy [] "/home/user/vnemath" "" 0 false).map RunResult.artifacts =
      Except.ok [] := by
  decide

/-- C9 amended: an empty target list is a successful no-op in both
analyzers: the run returns success, produces zero File Reports, and writes
no artifacts at all (the early return precedes every write, including the
index view). -/
theorem C9_empty_noop (project_root : String)
    (r : Option (Except String (List CppError))) (out : String)
    (rc : Int) (sx sj : Bool) :
    run_cppcheck [] project_root r rc sx = Except.ok ⟨true, [], []⟩ ∧
    run_clang_tidy [] project_root out rc sj = Except.ok ⟨true, [], []⟩ :=
  ⟨rfl, rfl⟩

/-- C10: every record the free-text parser emits has column 0 — both
emission sites store the literal 0, and in particular the column field of a
group-opening line (the part between line number and severity keyword) is
discarded.  On inputs where the parser raises, nothing is emitted at all,
so the property is stated over every successful parse. -/
theorem C10_column_zero (input : String) :
    ∀ fds, parse_clang_tidy_output input = Except.ok fds →
      ∀ fd ∈ fds, ∀ d ∈ fd.diagnostics, d.column = 0 :=
  parse_diag (P := fun d => d.column = 0) (fun _ _ => rfl) input

/-- C10 witness: the record parsed from scenario A (whose input line
carries column 5) has column 0. -/
theorem C10_column_zero_witness :
    (mkDiagnostic "warning" 10 0 "unused variable \x27x\x27 [check-x]").column = 0 :=
  C10_column_zero scenarioAInput
    [⟨"/a/b.cpp", [mkDiagnostic "warning" 10 0 "unused variable \x27x\x27 [check-x]"]⟩]
    (by decide)
    ⟨"/a/b.cpp", [mkDiagnostic "warning" 10 0 "unused variable \x27x\x27 [check-x]"]⟩
    (by decide)
    (mkDiagnostic "warning" 10 0 "unused variable \x27x\x27 [check-x]")
    (by decide)

/-- C5: while a file group is open, a stripped line that does not begin
with a path prefix but contains a severity keyword is appended to the open
group as one additional record with line 0, column 0, and the
keyword-stripped remainder as message; nothing else in the state changes. -/
theorem C5_continuation_attach (st : ParseState) (l : String)
    (hopen : pyTruthy st.current_file = true)
    (hpath : pyStartsWith (pyStrip l) '/' = false)
    (hkw : hasSeverityKeyword (pyStrip l) = true) :
    processLine st l =
      Except.ok { st with current_diagnostics :=
          st.current_diagnostics ++
            [mkDiagnostic (severityAndMessage (pyStrip l)).1 0 0
              (severityAndMessage (pyStrip l)).2] } := by
  have hne : pyStrip l ≠ "" := by
    intro h0
    rw [h0] at hkw
    exact absurd hkw (by decide)
  unfold processLine
  rw [if_neg hne, if_neg (by simp [hpath]), if_pos (by simp [hopen, hkw])]

/-- C5 witness: one concrete continuation line attached to an open group. -/
theorem C5_continuation_attach_witness :
    processLine ⟨some "/a/b.cpp", [], []⟩ "note: extra info" =
      Except.ok ⟨some "/a/b.cpp", [mkDiagnostic "note" 0 0 "extra info"], []⟩ :=
  (C5_continuation_attach ⟨some "/a/b.cpp", [], []⟩ "note: extra info"
    (by decide) (by decide) (by decide)).trans (by decide)

/-- C6: the free-text parser CAN raise, contrary to the claim and to the
evident purpose of the source's guard
`int(line_num) if line_num.isdigit() else 0`: for the output line whose
line-number field is the superscript two (U+00B2), `str.isdigit` is true
(Numeric_Type=Digit) yet `int()` raises ValueError, which nothing catches,
so the whole parse aborts instead of skipping the malformed line. -/
theorem C6_superscript_digit_raises :
    pyIsDigit "\xB2" = true ∧
    pyIntOpt "\xB2" = none ∧
    parse_clang_tidy_output "/a:\xB2: warning: x" = Except.error pyIntError := by
  decide

/-- C7: the vendor filter is a pure predicate on the path string: it holds
exactly when one of the seven fixed markers occurs as a raw substring of
the path; and for a vendored target path both per-file selections are
empty, so the File Report has issue count 0 and status Clean regardless of
what diagnostics exist for that path. -/
theorem C7_vendor_filter (p : String) (data : List FileData) (errors : List CppError) :
    (isVendored p = true ↔ ∃ m ∈ vendorMarkers, ∃ a b, p.data = a ++ m.data ++ b) ∧
    (isVendored p = true →
      fileDiagnostics data p = [] ∧
      reportStatus (fileDiagnostics data p).length = Status.success ∧
      cppFileErrors errors p = []) := by
  constructor
  · unfold isVendored
    rw [List.any_eq_true]
    constructor
    · rintro ⟨m, hm, hc⟩
      exact ⟨m, hm, (strContains_iff p m).mp hc⟩
    · rintro ⟨m, hm, hc⟩
      exact ⟨m, hm, (strContains_iff p m).mpr hc⟩
  · intro hp
    have h1 : fileDiagnostics data p = [] := clang_foldl_vendored hp data []
    have h2 : cppFileErrors errors p = [] := cpp_foldl_vendored hp errors []
    refine ⟨h1, ?_, h2⟩
    rw [h1]
    rfl

/-- C7 witness: a vendored path with an existing diagnostic still yields an
empty selection and a Clean report. -/
theorem C7_vendor_filter_witness :
    fileDiagnostics [⟨"/x/third_party/y.cpp", [mkDiagnostic "error" 3 0 "bad"]⟩]
        "/x/third_party/y.cpp" = [] ∧
    reportStatus
      (fileDiagnostics [⟨"/x/third_party/y.cpp", [mkDiagnostic "error" 3 0 "bad"]⟩]
        "/x/third_party/y.cpp").length = Status.success := by
  have h := (C7_vendor_filter "/x/third_party/y.cpp"
    [⟨"/x/third_party/y.cpp", [mkDiagnostic "error" 3 0 "bad"]⟩] []).2 (by decide)
  exact ⟨h.1, h.2.1⟩

/-- C8: multi-tool orchestration.  Which tools run depends only on the two
mode flags (so a failing first tool never prevents the second); the overall
success is the conjunction of the per-tool exit-zero tests; and the session
exit code is non-zero exactly when some invoked tool exited non-zero. -/
theorem C8_orchestration (ctOnly ccOnly : Bool) (ccExit ctExit : Int) :
    (static_analyzer_main ctOnly ccOnly ccExit ctExit).invoked =
      (if ctOnly then [] else ["cppcheck"]) ++ (if ccOnly then [] else ["clang-tidy"]) ∧
    (static_analyzer_main ctOnly ccOnly ccExit ctExit).success =
      ((ctOnly || (ccExit == 0)) && (ccOnly || (ctExit == 0))) ∧
    ((static_analyzer_main ctOnly ccOnly ccExit ctExit).exitCode ≠ 0 ↔
      ((ctOnly = false ∧ ccExit ≠ 0) ∨ (ccOnly = false ∧ ctExit ≠ 0))) := by
  cases ctOnly <;> cases ccOnly <;>
    by_cases hc : ccExit = 0 <;> by_cases ht : ctExit = 0 <;>
      simp [static_analyzer_main, hc, ht]

/-- C8 witness: cppcheck fails with exit 1, clang-tidy still runs and
succeeds, the overall verdict is failure. -/
theorem C8_orchestration_witness :
    (static_analyzer_main false false 1 0).invoked =
      (if false then [] else ["cppcheck"]) ++ (if false then [] else ["clang-tidy"]) ∧
    (static_analyzer_main false false 1 0).success =
      ((false || ((1 : Int) == 0)) && (false || ((0 : Int) == 0))) ∧
    ((static_analyzer_main false false 1 0).exitCode ≠ 0 ↔
      ((false = false ∧ (1 : Int) ≠ 0) ∨ (false = false ∧ (0 : Int) ≠ 0))) :=
  C8_orchestration false false 1 0
